import Mathlib

/-!
Verification of the output-parsing layer of `src/nordvpn.rs`.

The source wraps an external command-line tool: it runs a subcommand, captures
its exit status and UTF-8 stdout, and parses the stdout with regular
expressions into typed values.  We embed that layer shallowly:

* a captured process result is an `Output` (exit-status flag plus stdout);
* each regular expression of the source is translated, construct by construct,
  into an `RE` value, and matching is executed by a backtracking engine
  (`mrun` / `rfind` / `capturesAll`) with the semantics of the `regex` crate
  as used by the source: leftmost starting position first, alternation
  prefers the left branch, repetition is greedy, capture groups record the
  consumed substring of the accepted path;
* each public operation (`account`, `cities`, `connect` argument
  construction, `countries`, `disconnect`, `groups`, `status`, `version`,
  `parse_list`) becomes a Lean function over `Output`.

Strings are modelled as `List Char` internally; only ASCII inputs appear in
the concrete evaluations, for which the ASCII character classes below agree
with the Unicode-aware classes of the `regex` crate.
-/

/-- Whitespace class `\s` (ASCII part of the Unicode class). -/
def wsChar (c : Char) : Bool :=
  c == ' ' || c == '\n' || c == '\t' || c == '\r' || c == '\x0b' || c == '\x0c'

/-- Word class `\w` (ASCII part). -/
def wordChar (c : Char) : Bool := c.isAlphanum || c == '_'

/-- Digit class `\d` (ASCII part). -/
def digitChar (c : Char) : Bool := c.isDigit

/-- Hexadecimal digit class `[\da-fA-F]`. -/
def hexChar (c : Char) : Bool :=
  c.isDigit || ('a' ≤ c && c ≤ 'f') || ('A' ≤ c && c ≤ 'F')

/-- Letter class `[a-zA-Z]`. -/
def alphaChar (c : Char) : Bool := c.isAlpha

/-- The `.` metacharacter: any character except a line break. -/
def dotAny (c : Char) : Bool := c != '\n'

/-- Class `[\w\d\.]` of the hostname pattern. -/
def hostChar (c : Char) : Bool := wordChar c || c == '.'

/-- Class `[\w ]` of the country and city patterns. -/
def wordSpChar (c : Char) : Bool := wordChar c || c == ' '

/-- Class `[\d.]` of the transfer pattern. -/
def numDotChar (c : Char) : Bool := digitChar c || c == '.'

/-- Regular expressions, covering exactly the constructs appearing in the
source patterns: character classes, literals, concatenation, alternation,
greedy star, capture groups and the end-of-haystack anchor. -/
inductive RE where
  | eps
  | cls (p : Char → Bool)
  | lit (cs : List Char)
  | cat (a b : RE)
  | alt (a b : RE)
  | star (a : RE)
  | grp (i : Nat) (a : RE)
  | eos

/-- Captures of one match: group index paired with the captured text. -/
abbrev Caps := List (Nat × List Char)

/-- Look up a capture group; `none` models a group that did not participate. -/
def capLookup (caps : Caps) (i : Nat) : Option (List Char) :=
  match caps.find? (fun p => p.1 == i) with
  | some p => some p.2
  | none => none

/-- The text of a capture group, defaulting to empty (groups read by the
source with `.unwrap()` are always present when the read happens). -/
def getCap (caps : Caps) (i : Nat) : List Char := (capLookup caps i).getD []

/-- Strip a literal from the head of the haystack. -/
def stripLead : List Char → List Char → Option (List Char)
  | [], s => some s
  | _ :: _, [] => none
  | c :: cs, d :: ds => if c == d then stripLead cs ds else none

/-- Backtracking matcher in continuation-passing style.  The continuation
receives the remaining haystack and the captures of the path taken so far;
alternation tries the left branch first and `star` is greedy, so the first
answer produced coincides with the answer of a Perl-style backtracking
engine and hence with the `regex` crate on these patterns.  `fuel` bounds
the number of star iterations; every starred subpattern of the source
consumes at least one character per iteration, so any fuel at least the
haystack length is enough. -/
def mrun {α : Type} : Nat → RE → List Char → Caps →
    (List Char → Caps → Option α) → Option α
  | 0, _, _, _, _ => none
  | fuel + 1, re, s, caps, k =>
    match re with
    | .eps => k s caps
    | .cls p =>
      match s with
      | [] => none
      | c :: rest => if p c then k rest caps else none
    | .lit cs =>
      match stripLead cs s with
      | some rest => k rest caps
      | none => none
    | .cat a b =>
      mrun fuel a s caps (fun s' caps' => mrun fuel b s' caps' k)
    | .alt a b =>
      match mrun fuel a s caps k with
      | some r => some r
      | none => mrun fuel b s caps k
    | .star a =>
      match mrun fuel a s caps
          (fun s' caps' =>
            if s'.length < s.length then mrun fuel (.star a) s' caps' k
            else k s' caps') with
      | some r => some r
      | none => k s caps
    | .grp i a =>
      mrun fuel a s caps
        (fun s' caps' => k s' ((i, s.take (s.length - s'.length)) :: caps'))
    | .eos =>
      match s with
      | [] => k [] caps
      | _ :: _ => none

/-- Fuel used everywhere: it bounds the nesting depth of matcher calls,
which stays below pattern size times haystack length, far below this
bound on every haystack considered here. -/
def FUEL : Nat := 100000

/-- Leftmost match: try each starting position in order, as `Regex::captures`
does, and return the captures together with the haystack remaining after the
match. -/
def rfind (re : RE) : List Char → Option (Caps × List Char)
  | [] =>
    mrun FUEL re [] [] (fun rest caps => some (caps, rest))
  | c :: t =>
    match mrun FUEL re (c :: t) [] (fun rest caps => some (caps, rest)) with
    | some r => some r
    | none => rfind re t

/-- Successive non-overlapping matches, as `Regex::captures_iter`: restart
after the end of each match (advancing one character if a match consumed
nothing, which no pattern used with this function can do). -/
def capturesAll (re : RE) : Nat → List Char → List Caps
  | 0, _ => []
  | bound + 1, s =>
    match rfind re s with
    | none => []
    | some (caps, rest) =>
      if rest.length < s.length then caps :: capturesAll re bound rest
      else
        match s with
        | [] => [caps]
        | _ :: t => caps :: capturesAll re bound t

/-- Model of `str::contains` for a literal substring. -/
def containsSub (needle : List Char) : List Char → Bool
  | [] => needle.isEmpty
  | c :: t => (stripLead needle (c :: t)).isSome || containsSub needle t

/-- Concatenation of a pattern sequence. -/
def rcat : List RE → RE
  | [] => .eps
  | [r] => r
  | r :: rs => .cat r (rcat rs)

/-- Greedy `+`. -/
def plusR (r : RE) : RE := .cat r (.star r)

/-- Greedy `?`. -/
def optR (r : RE) : RE := .alt r .eps

/-- Exact repetition `{n}`. -/
def repN (r : RE) : Nat → RE
  | 0 => .eps
  | n + 1 => .cat r (repN r n)

/-- Greedy bounded repetition `{0,n}`. -/
def upToN (r : RE) : Nat → RE
  | 0 => .eps
  | n + 1 => optR (.cat r (upToN r n))

/-- Literal from a string. -/
def litS (s : String) : RE := .lit s.toList

/-- Case-insensitive literal, for the `(?i:...)` groups. -/
def litCI (s : String) : RE :=
  rcat (s.toList.map (fun c => RE.cls (fun d => d.toLower == c.toLower)))

/-- Pattern `\s+`. -/
def wsP : RE := plusR (.cls wsChar)

/-- Pattern `\s*`. -/
def wsS : RE := .star (.cls wsChar)

/-! ### The patterns of `src/nordvpn.rs`, translated construct by construct -/

/-- Pattern `Email Address:\s+(.+)\s+` -/
def RE_EMAIL : RE :=
  rcat [litS "Email Address:", wsP, .grp 1 (plusR (.cls dotAny)), wsP]

/-- Pattern `VPN Service:\s+(\w+)\s+` -/
def RE_ACTIVE : RE :=
  rcat [litS "VPN Service:", wsP, .grp 1 (plusR (.cls wordChar)), wsP]

/-- Pattern `\(Expires on\s+(\w{3})\s+(\d+)(?:st|nd|rd|th),\s+(\d{4})\)` -/
def RE_EXPIRES : RE :=
  rcat [litS "(Expires on", wsP, .grp 1 (repN (.cls wordChar) 3), wsP,
    .grp 2 (plusR (.cls digitChar)),
    .alt (litS "st") (.alt (litS "nd") (.alt (litS "rd") (litS "th"))),
    litS ",", wsP, .grp 3 (repN (.cls digitChar) 4), litS ")"]

/-- Pattern `Current server:\s+([\w\d\.]+)` -/
def RE_HOSTNAME : RE :=
  rcat [litS "Current server:", wsP, .grp 1 (plusR (.cls hostChar))]

/-- Pattern `Country:\s+([\w ]+)` -/
def RE_COUNTRY : RE :=
  rcat [litS "Country:", wsP, .grp 1 (plusR (.cls wordSpChar))]

/-- Pattern `City:\s+([\w ]+)` -/
def RE_CITY : RE :=
  rcat [litS "City:", wsP, .grp 1 (plusR (.cls wordSpChar))]

/-- Pattern `(?:[\da-fA-F]{0,4}:){1,7}[\da-fA-F]{0,4}`, the IPv6 branch. -/
def ip6RE : RE :=
  .cat (.cat (.cat (upToN (.cls hexChar) 4) (litS ":"))
      (upToN (.cat (upToN (.cls hexChar) 4) (litS ":")) 6))
    (upToN (.cls hexChar) 4)

/-- Pattern `(?:\d{1,3}\.){3}\d{1,3}`, the IPv4 branch; `\d{1,3}` is one digit then
up to two more, greedily. -/
def ip4RE : RE :=
  .cat (repN (.cat (.cat (.cls digitChar) (upToN (.cls digitChar) 2)) (litS ".")) 3)
    (.cat (.cls digitChar) (upToN (.cls digitChar) 2))

/-- Pattern `Server IP:\s+((?:[\da-fA-F]{0,4}:){1,7}[\da-fA-F]{0,4}|(?:\d{1,3}\.){3}\d{1,3})` -/
def RE_IP : RE :=
  rcat [litS "Server IP:", wsP, .grp 1 (.alt ip6RE ip4RE)]

/-- Pattern `Current technology:\s+((?i:OPENVPN|NORDLYNX))` -/
def RE_TECHNOLOGY : RE :=
  rcat [litS "Current technology:", wsP,
    .grp 1 (.alt (litCI "OPENVPN") (litCI "NORDLYNX"))]

/-- Pattern `Current technology:\s+((?i:TCP|UDP))` — note the label: the protocol
pattern is anchored to the literal text `Current technology:`. -/
def RE_PROTOCOL : RE :=
  rcat [litS "Current technology:", wsP, .grp 1 (.alt (litCI "TCP") (litCI "UDP"))]

/-- Pattern `[\d.]+\s+[a-zA-Z]+`, one amount of the transfer pattern. -/
def amountRE : RE :=
  rcat [plusR (.cls numDotChar), wsP, plusR (.cls alphaChar)]

/-- Pattern `Transfer:\s+([\d.]+\s+[a-zA-Z]+)\s+received,\s+([\d.]+\s+[a-zA-Z]+)\s+sent` -/
def RE_TRANSFER : RE :=
  rcat [litS "Transfer:", wsP, .grp 1 amountRE, wsP, litS "received,",
    wsP, .grp 2 amountRE, wsP, litS "sent"]

/-- One optional component `(?:(?P<u>\d+)\s+<unit>s?\s*)?` of the uptime
pattern; the named groups are numbered 1–6 in source order. -/
def uptimeGrp (i : Nat) (unit : String) : RE :=
  optR (rcat [.grp i (plusR (.cls digitChar)), wsP, litS unit,
    optR (litS "s"), wsS])

/-- Pattern `Uptime:\s+(?:(?P<years>\d+)\s+years?\s*)?...(?:(?P<seconds>\d+)\s+seconds?\s*)?` -/
def RE_UPTIME : RE :=
  rcat [litS "Uptime:", wsP,
    uptimeGrp 1 "year", uptimeGrp 2 "month", uptimeGrp 3 "day",
    uptimeGrp 4 "hour", uptimeGrp 5 "minute", uptimeGrp 6 "second"]

/-- Pattern `(\d+\.\d+.\d+)\s+$` — the first separator is an escaped dot, the second
is the bare `.` metacharacter, i.e. any non-newline character. -/
def RE_VERSION : RE :=
  rcat [.grp 1 (rcat [plusR (.cls digitChar), litS ".",
      plusR (.cls digitChar), .cls dotAny, plusR (.cls digitChar)]),
    wsP, .eos]

/-- Pattern `(\w+)(?:,\s*|\s*$)` of `parse_list`. -/
def RE_LIST : RE :=
  .cat (.grp 1 (plusR (.cls wordChar)))
    (.alt (.cat (litS ",") wsS) (.cat wsS .eos))

/-! ### Domain model -/

inductive Technology where
  | OpenVpn
  | NordLynx
  deriving DecidableEq, Repr

inductive Protocol where
  | Tcp
  | Udp
  deriving DecidableEq, Repr

/-- The two byte quantities of the transfer line.  The source parses each
captured `"<number> <unit>"` text into a `byte_unit::Byte`; no claim touches
the numeric value, so the captured text itself is stored. -/
structure Transfer where
  recieved : String
  sent : String
  deriving DecidableEq, Repr

structure NaiveDate where
  year : Int
  month : Nat
  day : Nat
  deriving DecidableEq, Repr

/-- Model of `Status`; `ip` keeps the captured address text (the source parses it
into an `IpAddr`), `uptimeMs` is the `chrono::Duration` in milliseconds,
the unit in which the source constructs it. -/
structure Status where
  hostname : String
  country : String
  city : String
  ip : String
  technology : Technology
  protocol : Protocol
  transfer : Transfer
  uptimeMs : Int
  deriving DecidableEq, Repr

structure Account where
  email : String
  active : Bool
  expires : NaiveDate
  deriving DecidableEq, Repr

/-- Model of `semver::Version` (pre-release and build metadata never occur in the
captures reaching it here, see `semverParse`). -/
structure Version where
  major : Nat
  minor : Nat
  patch : Nat
  deriving DecidableEq, Repr

inductive ConnectOption where
  | Country (country : String)
  | Server (server : String)
  | CountryCode (countryCode : String)
  | City (city : String)
  | Group (group : String)
  | CountryCity (country city : String)

/-- The error cases of `CliError` reachable from captured output.
`IoError` and `BadEncoding` arise while capturing, before the logic
embedded here runs, and `FailedCommand`/`BadOutput` carry the issued
command, modelled as its argument list. -/
inductive CliError where
  | FailedCommand (cmd : List String)
  | BadOutput (cmd : List String)
  | BadDateFormat
  | BadVersion
  deriving DecidableEq, Repr

/-- A captured process result: exit-status success flag and decoded stdout. -/
structure Output where
  success : Bool
  stdout : String

/-! ### Conversion helpers used by the operations -/

/-- Numeric value of a digit string (each captured group is all digits). -/
def natOfDigits (cs : List Char) : Nat :=
  cs.foldl (fun n c => 10 * n + (c.toNat - '0'.toNat)) 0

/-- The `strum` parse of `Technology` (`ascii_case_insensitive`, serialized
`UPPERCASE`). -/
def parseTechnology (s : List Char) : Option Technology :=
  let u := s.map Char.toUpper
  if u = "OPENVPN".toList then some .OpenVpn
  else if u = "NORDLYNX".toList then some .NordLynx
  else none

/-- The `strum` parse of `Protocol`. -/
def parseProtocol (s : List Char) : Option Protocol :=
  let u := s.map Char.toUpper
  if u = "TCP".toList then some .Tcp
  else if u = "UDP".toList then some .Udp
  else none

/-- Greedy run of one up to `maxN` digits, returning the value and the rest,
as the numeric scanner of `chrono` does. -/
def takeDigits (maxN : Nat) : List Char → Option (Nat × List Char)
  | cs =>
    let ds := (cs.take maxN).takeWhile digitChar
    if ds.isEmpty then none else some (natOfDigits ds, cs.drop ds.length)

def isLeapYear (y : Int) : Bool :=
  y % 4 == 0 && (y % 100 != 0 || y % 400 == 0)

def daysInMonth (y : Int) (m : Nat) : Nat :=
  if m = 2 then (if isLeapYear y then 29 else 28)
  else if m = 4 ∨ m = 6 ∨ m = 9 ∨ m = 11 then 30
  else 31

/-- Month number of a three-letter abbreviation, case-insensitively, as
`chrono` accepts for `%b`. -/
def monthOfAbbr (s : List Char) : Option Nat :=
  let u := s.map Char.toLower
  if u = "jan".toList then some 1
  else if u = "feb".toList then some 2
  else if u = "mar".toList then some 3
  else if u = "apr".toList then some 4
  else if u = "may".toList then some 5
  else if u = "jun".toList then some 6
  else if u = "jul".toList then some 7
  else if u = "aug".toList then some 8
  else if u = "sep".toList then some 9
  else if u = "oct".toList then some 10
  else if u = "nov".toList then some 11
  else if u = "dec".toList then some 12
  else none

/-- Model of `chrono::NaiveDate::parse_from_str` with the fixed format `%b-%d-%Y`:
month abbreviation, literal dash, one or two digits of day, literal dash,
up to four digits of year; the whole input must be consumed and the date
must be a valid calendar date. -/
def parseBDY (s : List Char) : Option NaiveDate :=
  match s with
  | a :: b :: c :: rest =>
    match monthOfAbbr [a, b, c] with
    | none => none
    | some m =>
      match rest with
      | '-' :: r1 =>
        match takeDigits 2 r1 with
        | none => none
        | some (d, r2) =>
          match r2 with
          | '-' :: r3 =>
            match takeDigits 4 r3 with
            | none => none
            | some (y, r4) =>
              if r4.isEmpty && 1 ≤ d && d ≤ daysInMonth (Int.ofNat y) m then
                some ⟨Int.ofNat y, m, d⟩
              else none
          | _ => none
      | _ => none
  | _ => none

/-- The `{:02}` width specification of `format!` applied to a `&str`
argument, as in the expiry-date recombination: the zero-padding flag only
affects numeric arguments, so a string shorter than the width is padded
with spaces on the right (strings align left by default). -/
def padWidth2Str (s : List Char) : List Char :=
  if s.length < 2 then s ++ List.replicate (2 - s.length) ' ' else s

/-- The recombination `format!("{}-{:02}-{}", month, day, year)` of `account`. -/
def fmtExpires (mon day year : List Char) : List Char :=
  mon ++ ('-' :: padWidth2Str day) ++ ('-' :: year)

/-- One dot-separated numeral of `semver`: digits without a leading zero
(except the numeral `0` itself). -/
def semverNum : List Char → Option (Nat × List Char)
  | cs =>
    let ds := cs.takeWhile digitChar
    if ds.isEmpty then none
    else if ds.length > 1 && ds.headI = '0' then none
    else some (natOfDigits ds, cs.drop ds.length)

/-- Model of `semver::Version::parse`: `major.minor.patch`, nothing after the patch
numeral.  (Real `semver` would also accept `-prerelease`/`+build` suffixes;
every capture fed to this function ends in a digit, so the suffix cases are
unreachable and both parsers agree on all reachable inputs.) -/
def semverParse (s : List Char) : Option Version :=
  match semverNum s with
  | some (ma, '.' :: r1) =>
    match semverNum r1 with
    | some (mi, '.' :: r2) =>
      match semverNum r2 with
      | some (pa, r3) => if r3.isEmpty then some ⟨ma, mi, pa⟩ else none
      | none => none
    | _ => none
  | _ => none

/-- The uptime normalization of `status` in milliseconds:
`(100 * (seconds + minutes*60 + hours*3600 + days*86400 + months*2.628e6
+ years*3.154e7)).round() as i64`.  The constants `2.628e6` and `3.154e7`
are exactly the doubles `2628000` and `31540000`; at the integer magnitudes
evaluated in this development every intermediate double is an exactly
represented integer, so the `.round()` of the source is the identity and
exact integer arithmetic models the computation faithfully. -/
def uptimeMillis (y mo d h mi s : Nat) : Int :=
  Int.ofNat (100 * (s + 60 * mi + 3600 * h + 86400 * d
    + 2628000 * mo + 31540000 * y))

/-- An optional named group of the uptime match, absent meaning zero, as in
`captures.name(..).map_or(0., |v| v.as_str().parse().unwrap())`. -/
def uptimeField (caps : Caps) (i : Nat) : Nat :=
  match capLookup caps i with
  | some v => natOfDigits v
  | none => 0

deriving instance DecidableEq for Except

/-! ### The operations -/

def accountCmd : List String := ["nordvpn", "account"]
def citiesCmd (country : String) : List String := ["nordvpn", "cities", country]
def countriesCmd : List String := ["nordvpn", "countries"]
def disconnectCmd : List String := ["nordvpn", "disconnect"]
def groupsCmd : List String := ["nordvpn", "groups"]
def statusCmd : List String := ["nordvpn", "status"]
def versionCmd : List String := ["nordvpn", "version"]

/-- Embeds `NordVPN::account`: the `"You are not logged in."` sentinel is checked
before the exit status; then the three patterns are applied in source order
(email, active, expiry), each failure yielding `BadOutput`, and the date
recombination is parsed with `%b-%d-%Y`, a parse failure yielding
`BadDateFormat`. -/
def account (o : Output) : Except CliError (Option Account) :=
  match containsSub "You are not logged in.".toList o.stdout.toList with
  | true => .ok none
  | false =>
    match o.success with
    | false => .error (.FailedCommand accountCmd)
    | true =>
      match rfind RE_EMAIL o.stdout.toList with
      | none => .error (.BadOutput accountCmd)
      | some ce =>
        match rfind RE_ACTIVE o.stdout.toList with
        | none => .error (.BadOutput accountCmd)
        | some ca =>
          match rfind RE_EXPIRES o.stdout.toList with
          | none => .error (.BadOutput accountCmd)
          | some cx =>
            match parseBDY (fmtExpires (getCap cx.1 1) (getCap cx.1 2) (getCap cx.1 3)) with
            | none => .error .BadDateFormat
            | some date =>
              .ok (some
                { email := String.mk (getCap ce.1 1)
                  active := getCap ca.1 1 == "Active".toList
                  expires := date })

/-- Embeds `NordVPN::parse_list`: iterate the word-list pattern; `none` when the
first peek finds no match at all, otherwise the first captures of every
match in order. -/
def parse_list (s : List Char) : Option (List String) :=
  match capturesAll RE_LIST (s.length + 1) s with
  | [] => none
  | caps => some (caps.map (fun c => String.mk (getCap c 1)))

/-- Embeds `NordVPN::cities`: exit status first, then the list grammar. -/
def cities (country : String) (o : Output) : Except CliError (List String) :=
  match o.success with
  | false => .error (.FailedCommand (citiesCmd country))
  | true =>
    match parse_list o.stdout.toList with
    | none => .error (.BadOutput (citiesCmd country))
    | some l => .ok l

/-- Embeds `NordVPN::countries`. -/
def countries (o : Output) : Except CliError (List String) :=
  match o.success with
  | false => .error (.FailedCommand countriesCmd)
  | true =>
    match parse_list o.stdout.toList with
    | none => .error (.BadOutput countriesCmd)
    | some l => .ok l

/-- Embeds `NordVPN::groups`. -/
def groups (o : Output) : Except CliError (List String) :=
  match o.success with
  | false => .error (.FailedCommand groupsCmd)
  | true =>
    match parse_list o.stdout.toList with
    | none => .error (.BadOutput groupsCmd)
    | some l => .ok l

/-- Embeds `NordVPN::disconnect`: the exit status is checked first; only then are
the two sentinel phrases examined, `"You are not connected to NordVPN."`
before `"You are disconnected from NordVPN."`; neither present is
`BadOutput`. -/
def disconnect (o : Output) : Except CliError Bool :=
  match o.success with
  | false => .error (.FailedCommand disconnectCmd)
  | true =>
    match containsSub "You are not connected to NordVPN.".toList o.stdout.toList with
    | true => .ok false
    | false =>
      match containsSub "You are disconnected from NordVPN.".toList o.stdout.toList with
      | true => .ok true
      | false => .error (.BadOutput disconnectCmd)

/-- The argument vector issued by `NordVPN::connect`: `["nordvpn",
"connect"]` extended according to the active `ConnectOption` variant. -/
def connectRun (option : ConnectOption) : List String :=
  ["nordvpn", "connect"] ++
    (match option with
      | .Country country => [country]
      | .Server server => [server]
      | .CountryCode countryCode => [countryCode]
      | .City city => [city]
      | .Group group => [group]
      | .CountryCity country city => [country, city])

/-- Embeds `NordVPN::status`: the `"Disconnected"` sentinel first, then the exit
status, then the eight patterns in source order (hostname, country, city,
ip, technology, protocol, transfer, uptime), any failure yielding
`BadOutput`.  The technology and protocol conversions cannot fail on a
matched capture; `getD` stands for the source `.unwrap()`. -/
def status (o : Output) : Except CliError (Option Status) :=
  match containsSub "Disconnected".toList o.stdout.toList with
  | true => .ok none
  | false =>
    match o.success with
    | false => .error (.FailedCommand statusCmd)
    | true =>
      match rfind RE_HOSTNAME o.stdout.toList with
      | none => .error (.BadOutput statusCmd)
      | some c1 =>
      match rfind RE_COUNTRY o.stdout.toList with
      | none => .error (.BadOutput statusCmd)
      | some c2 =>
      match rfind RE_CITY o.stdout.toList with
      | none => .error (.BadOutput statusCmd)
      | some c3 =>
      match rfind RE_IP o.stdout.toList with
      | none => .error (.BadOutput statusCmd)
      | some c4 =>
      match rfind RE_TECHNOLOGY o.stdout.toList with
      | none => .error (.BadOutput statusCmd)
      | some c5 =>
      match rfind RE_PROTOCOL o.stdout.toList with
      | none => .error (.BadOutput statusCmd)
      | some c6 =>
      match rfind RE_TRANSFER o.stdout.toList with
      | none => .error (.BadOutput statusCmd)
      | some c7 =>
      match rfind RE_UPTIME o.stdout.toList with
      | none => .error (.BadOutput statusCmd)
      | some c8 =>
        .ok (some
          { hostname := String.mk (getCap c1.1 1)
            country := String.mk (getCap c2.1 1)
            city := String.mk (getCap c3.1 1)
            ip := String.mk (getCap c4.1 1)
            technology := (parseTechnology (getCap c5.1 1)).getD .OpenVpn
            protocol := (parseProtocol (getCap c6.1 1)).getD .Tcp
            transfer := { recieved := String.mk (getCap c7.1 1)
                          sent := String.mk (getCap c7.1 2) }
            uptimeMs := uptimeMillis (uptimeField c8.1 1) (uptimeField c8.1 2)
              (uptimeField c8.1 3) (uptimeField c8.1 4) (uptimeField c8.1 5)
              (uptimeField c8.1 6) })

/-- Embeds `NordVPN::version`: exit status, then the trailing-version pattern,
then `semver` parsing of the capture. -/
def version (o : Output) : Except CliError Version :=
  match o.success with
  | false => .error (.FailedCommand versionCmd)
  | true =>
    match rfind RE_VERSION o.stdout.toList with
    | none => .error (.BadOutput versionCmd)
    | some c =>
      match semverParse (getCap c.1 1) with
      | none => .error .BadVersion
      | some v => .ok v

/-! ### Concrete captured outputs used below -/

/-- A status stdout on which all eight patterns match (the protocol pattern
needs a second `Current technology:` label followed by `UDP`, see
`RE_PROTOCOL`), with an uptime of one second. -/
def upStdout : String :=
  "Current server: a1.nordvpn.com\nCountry: Germany\nCity: Berlin\nServer IP: 1.2.3.4\nCurrent technology: NORDLYNX\nCurrent technology: UDP\nTransfer: 1.0 MiB received, 2.0 MiB sent\nUptime: 1 seconds\n"

/-- A status stdout in the format the external tool actually prints: the
technology line carries `OPENVPN` and the protocol appears only after a
separate `Current protocol:` label. -/
def protoStdout : String :=
  "Current server: de1.nordvpn.com\nCountry: Germany\nCity: Berlin\nServer IP: 1.2.3.4\nCurrent technology: OPENVPN\nCurrent protocol: UDP\nTransfer: 1.0 MiB received, 2.0 MiB sent\nUptime: 5 seconds\n"

/-- The account stdout of the spec fixture. -/
def accStdout : String :=
  "Email Address: a@b.com \nVPN Service: Active \n(Expires on Jan 1st, 2030)\n"

/-- The uptime normalization exactly as the spec states it: total seconds
with one month as 2628000 seconds and one year as 31540000 seconds (on
integer inputs the rounding to whole seconds is the identity). -/
def specUptimeSeconds (y mo d h mi s : Nat) : Nat :=
  s + mi * 60 + h * 3600 + d * 86400 + mo * 2628000 + y * 31540000

/-- A placeholder status value, used only to instantiate a universally
quantified statement at a concrete point. -/
def someStatus : Status :=
  { hostname := "h", country := "c", city := "t", ip := "i",
    technology := .OpenVpn, protocol := .Udp,
    transfer := { recieved := "r", sent := "s" }, uptimeMs := 0 }

/-! ### The claims -/

set_option maxRecDepth 2000000 in
/-- C1: the claim states that the uptime duration assembled by `status`
equals `seconds + minutes*60 + hours*3600 + days*86400 + months*2628000 +
years*31540000` seconds.  The code multiplies the total seconds by 100 —
not 1000 — before passing the value to `Duration::milliseconds`, so the
assembled duration is one tenth of a second per uptime second: on a stdout
reporting an uptime of one second the duration is 100 ms where the claim
demands 1000 ms. -/
theorem status_uptime_factor_bug :
    status ⟨true, upStdout⟩ = .ok (some
      { hostname := "a1.nordvpn.com", country := "Germany", city := "Berlin",
        ip := "1.2.3.4", technology := .NordLynx, protocol := .Udp,
        transfer := { recieved := "1.0 MiB", sent := "2.0 MiB" },
        uptimeMs := uptimeMillis 0 0 0 0 0 1 }) ∧
    uptimeMillis 0 0 0 0 0 1 = 100 ∧
    1000 * (specUptimeSeconds 0 0 0 0 0 1 : Int) = 1000 := by
  exact ⟨by decide, by decide, by decide⟩

/-- C2 counterexample: on a stdout containing the sentinel
`"You are not connected to NordVPN."` together with a failing exit status,
`disconnect` returns `FailedCommand` — not the alternate outcome
`Ok(false)` the claim requires. -/
theorem disconnect_sentinel_counterexample :
    disconnect ⟨false, "You are not connected to NordVPN.\n"⟩
      = .error (.FailedCommand disconnectCmd) ∧
    disconnect ⟨false, "You are not connected to NordVPN.\n"⟩ ≠ .ok false := by
  exact ⟨by decide, by decide⟩

/-- C2 amended: in `disconnect` the exit-status check precedes sentinel
detection: a failing exit status always yields `FailedCommand`, and the two
sentinel phrases map to `Ok(false)` and `Ok(true)` only under a successful
exit status. -/
theorem disconnect_exit_status_first (o : Output) :
    (o.success = false → disconnect o = .error (.FailedCommand disconnectCmd)) ∧
    (o.success = true →
      containsSub "You are not connected to NordVPN.".toList o.stdout.toList = true →
      disconnect o = .ok false) ∧
    (o.success = true →
      containsSub "You are not connected to NordVPN.".toList o.stdout.toList = false →
      containsSub "You are disconnected from NordVPN.".toList o.stdout.toList = true →
      disconnect o = .ok true) := by
  refine ⟨fun hs => ?_, fun hs h1 => ?_, fun hs h1 h2 => ?_⟩
  · unfold disconnect; rw [hs]
  · unfold disconnect; rw [hs, h1]
  · unfold disconnect; rw [hs, h1, h2]

/-- Witness for `disconnect_exit_status_first` at a concrete stdout. -/
theorem disconnect_exit_status_first_witness :
    disconnect ⟨false, "You are disconnected from NordVPN.\n"⟩
      = .error (.FailedCommand disconnectCmd) ∧
    disconnect ⟨true, "You are disconnected from NordVPN.\n"⟩ = .ok true :=
  ⟨(disconnect_exit_status_first ⟨false, "You are disconnected from NordVPN.\n"⟩).1
      rfl,
   (disconnect_exit_status_first ⟨true, "You are disconnected from NordVPN.\n"⟩).2.2
      rfl (by decide) (by decide)⟩

set_option maxRecDepth 2000000 in
/-- C3: on the fixture stdout, `account` does not return the claimed
`Account` value; it fails with `BadDateFormat`.  The `{:02}` width
specification of `format!` does not zero-pad a string argument, so the
recombination yields `"Jan-1 -2030"`, which `%b-%d-%Y` rejects at the dash
literal — while the zero-padded recombination the source intends
(`"Jan-01-2030"`) would have parsed to 2030-01-01.  Independently, the
greedy email pattern keeps the trailing space of the email line, capturing
`"a@b.com "` where the claim demands `"a@b.com"`. -/
theorem account_expiry_pad_bug :
    account ⟨true, accStdout⟩ = .error .BadDateFormat ∧
    (rfind RE_EMAIL accStdout.toList).map (fun p => String.mk (getCap p.1 1))
      = some "a@b.com " ∧
    fmtExpires "Jan".toList "1".toList "2030".toList = "Jan-1 -2030".toList ∧
    parseBDY "Jan-01-2030".toList = some ⟨2030, 1, 1⟩ := by
  exact ⟨by decide, by decide, by decide, by decide⟩

/-- C4 counterexample: the stdout `"1.2a3 \n"` contains no dotted triple of
digits, yet the extraction succeeds with the substring `"1.2a3"` — the
second separator of the pattern is the bare `.` metacharacter, not a dot —
and `version` fails with `BadVersion` from the semantic-version parse
instead of the `UnexpectedOutput` the claim requires. -/
theorem version_any_char_counterexample :
    version ⟨true, "1.2a3 \n"⟩ = .error .BadVersion ∧
    version ⟨true, "1.2a3 \n"⟩ ≠ .error (.BadOutput versionCmd) ∧
    (rfind RE_VERSION "1.2a3 \n".toList).map (fun p => String.mk (getCap p.1 1))
      = some "1.2a3" := by
  exact ⟨by decide, by decide, by decide⟩

/-- C4 amended: `version` extracts the leftmost substring of the shape
digits, dot, digits, any single non-newline character, digits, followed by
whitespace running to the end of the output, and parses it as a semantic
version (`BadVersion` when that parse fails); `UnexpectedOutput` arises
exactly when the pattern finds nothing under a successful exit status — in
particular a dotted triple not followed by trailing whitespace is not
accepted. -/
theorem version_extraction_behavior (o : Output) (h : o.success = true) :
    (rfind RE_VERSION o.stdout.toList = none →
      version o = .error (.BadOutput versionCmd)) ∧
    (∀ p, rfind RE_VERSION o.stdout.toList = some p →
      version o = (match semverParse (getCap p.1 1) with
        | none => .error .BadVersion
        | some v => .ok v)) ∧
    version ⟨true, "NordVPN Version 3.12.5\n"⟩ = .ok ⟨3, 12, 5⟩ ∧
    version ⟨true, "NordVPN Version 3.12.5"⟩ = .error (.BadOutput versionCmd) := by
  refine ⟨fun hn => ?_, fun p hp => ?_, by decide, by decide⟩
  · unfold version; rw [h, hn]
  · unfold version; rw [h, hp]

/-- Witness for `version_extraction_behavior` at a concrete stdout. -/
theorem version_extraction_behavior_witness :
    version ⟨true, "update available\n"⟩ = .error (.BadOutput versionCmd) :=
  (version_extraction_behavior ⟨true, "update available\n"⟩ rfl).1 (by decide)

/-- C5: status fields are co-required — without the `Disconnected`
sentinel and under a successful exit status, failure of any one of the
eight field patterns makes `status` return `BadOutput` carrying the status
command, never a partially populated value. -/
theorem status_fields_corequired (o : Output)
    (hsen : containsSub "Disconnected".toList o.stdout.toList = false)
    (hsucc : o.success = true)
    (hmiss : rfind RE_HOSTNAME o.stdout.toList = none ∨
      rfind RE_COUNTRY o.stdout.toList = none ∨
      rfind RE_CITY o.stdout.toList = none ∨
      rfind RE_IP o.stdout.toList = none ∨
      rfind RE_TECHNOLOGY o.stdout.toList = none ∨
      rfind RE_PROTOCOL o.stdout.toList = none ∨
      rfind RE_TRANSFER o.stdout.toList = none ∨
      rfind RE_UPTIME o.stdout.toList = none) :
    status o = .error (.BadOutput statusCmd) := by
  unfold status
  rw [hsen, hsucc]
  cases h1 : rfind RE_HOSTNAME o.stdout.toList with
  | none => rfl
  | some c1 =>
    cases h2 : rfind RE_COUNTRY o.stdout.toList with
    | none => rfl
    | some c2 =>
      cases h3 : rfind RE_CITY o.stdout.toList with
      | none => rfl
      | some c3 =>
        cases h4 : rfind RE_IP o.stdout.toList with
        | none => rfl
        | some c4 =>
          cases h5 : rfind RE_TECHNOLOGY o.stdout.toList with
          | none => rfl
          | some c5 =>
            cases h6 : rfind RE_PROTOCOL o.stdout.toList with
            | none => rfl
            | some c6 =>
              cases h7 : rfind RE_TRANSFER o.stdout.toList with
              | none => rfl
              | some c7 =>
                cases h8 : rfind RE_UPTIME o.stdout.toList with
                | none => rfl
                | some c8 =>
                  rcases hmiss with h | h | h | h | h | h | h | h <;> simp_all

/-- Witness for `status_fields_corequired` at a concrete stdout on which
the hostname pattern fails. -/
theorem status_fields_corequired_witness :
    status ⟨true, "x"⟩ = .error (.BadOutput statusCmd) :=
  status_fields_corequired ⟨true, "x"⟩ (by decide) rfl (Or.inl (by decide))

/-- C6: in `account` the sentinel check precedes the exit-status check, so
a stdout containing `"You are not logged in."` yields `Ok(None)` even when
the exit status is failing. -/
theorem account_sentinel_priority (o : Output)
    (h : containsSub "You are not logged in.".toList o.stdout.toList = true) :
    account o = .ok none := by
  unfold account; rw [h]

/-- Witness for `account_sentinel_priority`: the sentinel with a failing
exit status. -/
theorem account_sentinel_priority_witness :
    account ⟨false, "You are not logged in.\n"⟩ = .ok none :=
  account_sentinel_priority ⟨false, "You are not logged in.\n"⟩ (by decide)

/-- C7: on stdout `"europe, asia, africa"` with a successful exit status
each list operation returns exactly `["europe", "asia", "africa"]` — order
preserved, nothing dropped, nothing added. -/
theorem list_tokens_order :
    countries ⟨true, "europe, asia, africa"⟩ = .ok ["europe", "asia", "africa"] ∧
    cities "Germany" ⟨true, "europe, asia, africa"⟩
      = .ok ["europe", "asia", "africa"] ∧
    groups ⟨true, "europe, asia, africa"⟩ = .ok ["europe", "asia", "africa"] := by
  exact ⟨by decide, by decide, by decide⟩

/-- Helper for C8: a parsed list is never empty — `parse_list` returns
`none` rather than `some []` when no token matches. -/
theorem parse_list_some_ne_nil (s : List Char) (l : List String)
    (h : parse_list s = some l) : l ≠ [] := by
  unfold parse_list at h
  cases hc : capturesAll RE_LIST (s.length + 1) s with
  | nil => rw [hc] at h; simp at h
  | cons a t =>
    rw [hc] at h
    simp only [Option.some.injEq] at h
    subst h
    simp

/-- C8: when the list grammar matches zero tokens under a successful exit
status, every list operation fails with `BadOutput` carrying its own
command; consequently a successfully returned list is never empty. -/
theorem list_zero_tokens_error (o : Output) (c : String)
    (hsucc : o.success = true) :
    (parse_list o.stdout.toList = none →
      countries o = .error (.BadOutput countriesCmd) ∧
      cities c o = .error (.BadOutput (citiesCmd c)) ∧
      groups o = .error (.BadOutput groupsCmd)) ∧
    (∀ l, countries o = .ok l → l ≠ []) ∧
    (∀ l, cities c o = .ok l → l ≠ []) ∧
    (∀ l, groups o = .ok l → l ≠ []) := by
  refine ⟨fun hp => ⟨?_, ?_, ?_⟩, fun l hl => ?_, fun l hl => ?_, fun l hl => ?_⟩
  · unfold countries; rw [hsucc, hp]
  · unfold cities; rw [hsucc, hp]
  · unfold groups; rw [hsucc, hp]
  · unfold countries at hl
    rw [hsucc] at hl
    cases hc : parse_list o.stdout.toList with
    | none => rw [hc] at hl; simp at hl
    | some l2 =>
      rw [hc] at hl
      simp only [Except.ok.injEq] at hl
      subst hl
      exact parse_list_some_ne_nil _ _ hc
  · unfold cities at hl
    rw [hsucc] at hl
    cases hc : parse_list o.stdout.toList with
    | none => rw [hc] at hl; simp at hl
    | some l2 =>
      rw [hc] at hl
      simp only [Except.ok.injEq] at hl
      subst hl
      exact parse_list_some_ne_nil _ _ hc
  · unfold groups at hl
    rw [hsucc] at hl
    cases hc : parse_list o.stdout.toList with
    | none => rw [hc] at hl; simp at hl
    | some l2 =>
      rw [hc] at hl
      simp only [Except.ok.injEq] at hl
      subst hl
      exact parse_list_some_ne_nil _ _ hc

/-- Witness for `list_zero_tokens_error` on an empty stdout. -/
theorem list_zero_tokens_error_witness :
    countries ⟨true, ""⟩ = .error (.BadOutput countriesCmd) :=
  ((list_zero_tokens_error ⟨true, ""⟩ "x" rfl).1 (by decide)).1

/-- C9: the argument sequence issued by `connect` is fixed by the active
`ConnectOption` variant — one positional argument after the subcommand for
Country, Server, CountryCode, City and Group; country then city for
CountryCity; in particular `CountryCity "Germany" "Berlin"` issues
`["connect", "Germany", "Berlin"]` after the program name. -/
theorem connect_argument_construction :
    (∀ c, connectRun (.Country c) = ["nordvpn", "connect", c]) ∧
    (∀ s, connectRun (.Server s) = ["nordvpn", "connect", s]) ∧
    (∀ c, connectRun (.CountryCode c) = ["nordvpn", "connect", c]) ∧
    (∀ c, connectRun (.City c) = ["nordvpn", "connect", c]) ∧
    (∀ g, connectRun (.Group g) = ["nordvpn", "connect", g]) ∧
    (∀ c ci, connectRun (.CountryCity c ci) = ["nordvpn", "connect", c, ci]) ∧
    List.drop 1 (connectRun (.CountryCity "Germany" "Berlin"))
      = ["connect", "Germany", "Berlin"] :=
  ⟨fun _ => rfl, fun _ => rfl, fun _ => rfl, fun _ => rfl, fun _ => rfl,
   fun _ _ => rfl, rfl⟩

/-- Witness for `connect_argument_construction` at concrete arguments. -/
theorem connect_argument_construction_witness :
    connectRun (.CountryCity "Germany" "Berlin")
      = ["nordvpn", "connect", "Germany", "Berlin"] :=
  connect_argument_construction.2.2.2.2.2.1 "Germany" "Berlin"

set_option maxRecDepth 2000000 in
/-- C10: the protocol pattern is anchored to the literal label
`Current technology:`, so whenever it finds no match — in particular on a
realistic stdout whose technology line reads `Current technology: OPENVPN`
and whose protocol appears only after the separate `Current protocol:`
label — `status` never returns a populated `Status`, and on the concrete
stdout it returns `BadOutput` even though the technology pattern matches. -/
theorem protocol_anchored_to_technology_label :
    (∀ (o : Output) (st : Status), rfind RE_PROTOCOL o.stdout.toList = none →
      status o ≠ .ok (some st)) ∧
    rfind RE_PROTOCOL protoStdout.toList = none ∧
    (rfind RE_TECHNOLOGY protoStdout.toList).isSome = true ∧
    status ⟨true, protoStdout⟩ = .error (.BadOutput statusCmd) := by
  refine ⟨?_, by decide, by decide, by decide⟩
  intro o st h
  unfold status
  cases hs : containsSub "Disconnected".toList o.stdout.toList with
  | true => simp
  | false =>
    cases hsu : o.success with
    | false => simp
    | true =>
      cases h1 : rfind RE_HOSTNAME o.stdout.toList with
      | none => simp
      | some c1 =>
        cases h2 : rfind RE_COUNTRY o.stdout.toList with
        | none => simp
        | some c2 =>
          cases h3 : rfind RE_CITY o.stdout.toList with
          | none => simp
          | some c3 =>
            cases h4 : rfind RE_IP o.stdout.toList with
            | none => simp
            | some c4 =>
              cases h5 : rfind RE_TECHNOLOGY o.stdout.toList with
              | none => simp
              | some c5 => rw [h]; simp

/-- Witness for the universal part of
`protocol_anchored_to_technology_label` at the concrete stdout. -/
theorem protocol_anchored_witness :
    status ⟨true, protoStdout⟩ ≠ .ok (some someStatus) :=
  protocol_anchored_to_technology_label.1 ⟨true, protoStdout⟩ someStatus
    (by decide)
